import Mathlib

/-!
# Rizzenade: lyric search App (src/App.js) and the relevant-span locator

Two parts are embedded.

* The relevant-span locator `findRelevantLyricSnippet`.  `App.js` imports it
  from `./utils/api`, a module that is not among the sources, so it is
  modelled from the specification (sections 3, 4.1 and 8), with the case
  mapping, the context radius and the default window size as parameters.
* The state of the `App` component and its two handlers `handleSearch` and
  `handleSelectLyric`, translated from `src/App.js`.  The three imported
  functions (`searchLyrics`, `searchYouTube`, `findRelevantLyricSnippet`) are
  parameters of the handlers.
-/

namespace Rizzenade

/-! ## Part 1: the relevant-span locator -/

/-- Modelled from the spec: a Snippet is "a contiguous sub-sequence of lines
from a LyricsDocument, plus the start line index" (section 3). -/
structure Snippet where
  lines : List String
  start : Nat
deriving DecidableEq

/-- Modelled from the spec: the end index of a snippet's window in the source
text, both ends included as in "[max(0, i-k), min(lastIndex, i+k)]", that is
`start + count - 1`; it is `start - 1` for an empty window. -/
def Snippet.endIndex (sn : Snippet) : Int :=
  (sn.start : Int) + (sn.lines.length : Int) - 1

/-- Modelled from the spec: "normalize both query and each candidate line to a
common case (e.g. lower-case)".  The spec leaves the common case open, so the
case mapping of single characters, `lower`, is a parameter of the locator; it
may give several characters for one.  The result is the characters of `s`,
each mapped by `lower`. -/
def toLowerCase (lower : Char → List Char) (s : String) : List Char :=
  s.data.flatMap lower

/-- Modelled from the spec: the lower-casing of the ASCII letters, every other
character kept. -/
def asciiLower (c : Char) : List Char :=
  [c.toLower]

/-- Modelled from the spec: a wider lower-casing, for the capitals of ASCII,
Latin-1, Greek and Cyrillic; the dotted capital I (U+0130) becomes two
characters, as the lower-casing of JavaScript strings gives it. -/
def lowerCase (c : Char) : List Char :=
  if c.toNat = 0x130 then ['i', Char.ofNat 0x307]
  else if (0xC0 ≤ c.toNat ∧ c.toNat ≤ 0xDE ∧ c.toNat ≠ 0xD7) ∨
      (0x391 ≤ c.toNat ∧ c.toNat ≤ 0x3A9 ∧ c.toNat ≠ 0x3A2) ∨
      (0x410 ≤ c.toNat ∧ c.toNat ≤ 0x42F) then [Char.ofNat (c.toNat + 32)]
  else if 0x400 ≤ c.toNat ∧ c.toNat ≤ 0x40F then [Char.ofNat (c.toNat + 80)]
  else [c.toLower]

/-- Modelled from the spec: whether every character of `s` is an ASCII
character. -/
def isAscii (s : String) : Bool :=
  s.data.all fun c => decide (c.toNat < 128)

/-- Modelled from the spec: part of the substring test of the matching policy,
whether `q` is an initial segment of `l`. -/
def startsWith : List Char → List Char → Bool
  | _, [] => true
  | [], _ :: _ => false
  | a :: as, b :: bs => a == b && startsWith as bs

/-- Modelled from the spec: substring containment ("the normalized line
contains the normalized query as a substring").  Tries every position of `l`
from the left. -/
def includes : List Char → List Char → Bool
  | [], q => startsWith [] q
  | a :: as, q => startsWith (a :: as) q || includes as q

/-- Modelled from the spec: "A line is a candidate match if the normalized
line contains the normalized query as a substring." -/
def lineMatches (lower : Char → List Char) (query line : String) : Bool :=
  includes (toLowerCase lower line) (toLowerCase lower query)

/-- Modelled from the spec: "choose the first line (lowest index) satisfying
the substring-containment test, scanning from the start of the text." -/
def firstMatch (lower : Char → List Char) (text : List String) (query : String) : Option Nat :=
  match text with
  | [] => none
  | l :: rest =>
    if lineMatches lower query l then some 0
    else (firstMatch lower rest query).map (· + 1)

/-- Modelled from the spec: `lastIndex` of the window construction, the index
of the last line of `text`; `-1` for the empty text. -/
def lastIndex (text : List String) : Int :=
  (text.length : Int) - 1

/-- Modelled from the spec: the Snippet made of the lines of `text` with
indices `lo .. hi`, both ends included, together with the start index. -/
def lineWindow (text : List String) (lo hi : Int) : Snippet :=
  { lines := (text.drop lo.toNat).take (hi - lo + 1).toNat
    start := lo.toNat }

/-- Modelled from the spec: "given the matched line index i, return lines
[max(0, i-k), min(lastIndex, i+k)] for a fixed context radius k". -/
def matchedWindow (k : Nat) (text : List String) (i : Nat) : Snippet :=
  lineWindow text (max 0 ((i : Int) - (k : Int))) (min (lastIndex text) ((i : Int) + (k : Int)))

/-- Modelled from the spec: the "fixed default window starting at line 0";
`d` is its size in lines, cut at the end of the text so that it is never out
of range. -/
def defaultWindow (d : Nat) (text : List String) : Snippet :=
  { lines := text.take d
    start := 0 }

/-- Modelled from the spec: the size of the default window.  For the empty
query on a non-empty text section 8 asks both for "the default window starting
at line 0" and, the empty string being contained in line 0, for the window
"centered (clamped) on the first such matching line index", lines
`0 .. min(lastIndex, k)`.  The two agree when the default window has `k + 1`
lines, the size of the matched window of line 0 ("window size same as the
matched case"). -/
def defaultWindowSize (k : Nat) : Nat :=
  k + 1

/-- Modelled from the spec: the number of lines of an unclamped matched
window, `k` before the match, the match, `k` after; a larger size the default
window could be given (section 9 leaves the constant to the implementer). -/
def matchedWindowSize (k : Nat) : Nat :=
  2 * k + 1

/-- Modelled from the spec: the relevant-span locator of `./utils/api`
(section 4.1), which is not among the sources.  Fallback policy first ("if
query is empty, or no line matches, or the input text is empty, return a
fixed default window starting at line 0"), otherwise the window around the
first matching line.  `lower` is the case mapping, `k` the context radius,
`d` the default window size. -/
def findRelevantLyricSnippet (lower : Char → List Char) (k d : Nat) (text : List String)
    (query : String) : Snippet :=
  if query.data.isEmpty then defaultWindow d text
  else
    match firstMatch lower text query with
    | none => defaultWindow d text
    | some i => matchedWindow k text i

/-! ## Part 2: the App component (src/App.js) -/

/-- A value that can travel as `track.track.lyrics` and as first argument of
the locator: raw lyrics content, or a sequence of lines. -/
inductive LyricsValue where
  | raw (content : String)
  | lines (ls : List String)
deriving DecidableEq

/-- Splitting a character sequence on line breaks; `cur` holds the characters
of the line being read, in reverse. -/
def splitLinesAux : List Char → List Char → List String
  | [], cur => [String.mk cur.reverse]
  | c :: cs, cur =>
    if c = '\n' then String.mk cur.reverse :: splitLinesAux cs []
    else splitLinesAux cs (c :: cur)

/-- The lines of `s`, as `s.split('\n')` gives them. -/
def splitLines (s : String) : List String :=
  splitLinesAux s.data []

/-- The record under `.track` of a lyrics search result. -/
structure Track where
  lyrics : LyricsValue
  track_name : String
  artist_name : String
deriving DecidableEq

/-- One element of the array `searchLyrics` resolves to. -/
structure LyricsResult where
  track : Track
deriving DecidableEq

/-- The record under `.id` of a video search result. -/
structure VideoId where
  videoId : String
deriving DecidableEq

/-- One element of the array `searchYouTube` resolves to.  Every element of
`youtubeResults` is read as `item.id.videoId` by the video list (line 124), so
the record carries an `id`. -/
structure YouTubeVideo where
  id : VideoId
deriving DecidableEq

/-- The object `handleSelectLyric` stores in `selectedLyric` (lines 67-73);
`σ` is the type of what the locator returns. -/
structure SelectedLyric (σ : Type) where
  lyric : σ
  songTitle : String
  artist : String
  videoId : String
  fullLyrics : LyricsValue
deriving DecidableEq

/-- The `useState` cells of `App` (lines 14-20). -/
structure AppState (σ : Type) where
  isReady : Bool
  darkMode : Bool
  searchQuery : String
  results : List LyricsResult
  youtubeResults : List YouTubeVideo
  selectedLyric : Option (SelectedLyric σ)
  isLoading : Bool
deriving DecidableEq

/-- The initial values given to `useState` (lines 14-20). -/
def initialState (σ : Type) : AppState σ :=
  { isReady := false
    darkMode := false
    searchQuery := ""
    results := []
    youtubeResults := []
    selectedLyric := none
    isLoading := false }

/-- What a handler can throw, or a promise reject with. -/
inductive JsError where
  | typeError (what : String)
  | rejected (reason : String)
deriving DecidableEq

/-- The two asynchronous search clients imported from `./utils/api`; each
call either resolves to an array or rejects. -/
structure Api where
  searchLyrics : String → Except JsError (List LyricsResult)
  searchYouTube : String → Except JsError (List YouTubeVideo)

/-- `handleSelectLyric` (lines 66-74).  The object literal is evaluated field
by field before `setSelectedLyric` is called: the locator call first, then
`youtubeVideo.id.videoId`, which throws when `youtubeVideo` is `undefined`. -/
def handleSelectLyric {σ : Type} (locate : LyricsValue → String → σ) (s : AppState σ)
    (track : LyricsResult) (youtubeVideo : Option YouTubeVideo) :
    Except JsError (AppState σ) :=
  let lyric := locate track.track.lyrics s.searchQuery
  let songTitle := track.track.track_name
  let artist := track.track.artist_name
  match youtubeVideo with
  | none => Except.error (JsError.typeError "cannot read properties of undefined (reading id)")
  | some video =>
    Except.ok { s with
      selectedLyric := some
        { lyric := lyric
          songTitle := songTitle
          artist := artist
          videoId := video.id.videoId
          fullLyrics := track.track.lyrics } }

/-- The `onSelect` closure of the lyrics list item at `index` (line 112):
`handleSelectLyric(item, youtubeResults[index])`. -/
def onSelect {σ : Type} (locate : LyricsValue → String → σ) (s : AppState σ)
    (item : LyricsResult) (index : Nat) : Except JsError (AppState σ) :=
  handleSelectLyric locate s item s.youtubeResults[index]?

/-- The state once an event handler has run: the state it set, or the old
state when it threw before reaching a setter. -/
def afterHandler {σ : Type} (s : AppState σ) (r : Except JsError (AppState σ)) : AppState σ :=
  match r with
  | Except.ok s' => s'
  | Except.error _ => s

/-- What `handleSearch` does, in order: setter calls, calls of the two search
clients, and the `console.error` of the catch block. -/
inductive Effect where
  | setIsLoading (b : Bool)
  | callSearchLyrics (query : String)
  | setResults (r : List LyricsResult)
  | callSearchYouTube (query : String)
  | setYoutubeResults (y : List YouTubeVideo)
  | consoleError (e : JsError)
deriving DecidableEq

/-- The `try` block of `handleSearch` (lines 50-58): its effects in order and
whether it finished or threw. -/
def handleSearchTry {σ : Type} (api : Api) (s : AppState σ) : List Effect × Except JsError Unit :=
  match api.searchLyrics s.searchQuery with
  | Except.error e => ([Effect.callSearchLyrics s.searchQuery], Except.error e)
  | Except.ok lyricsResults =>
    if h : lyricsResults.length > 0 then
      let firstResult := (lyricsResults.get ⟨0, h⟩).track
      let youtubeQuery := firstResult.track_name ++ " " ++ firstResult.artist_name
      match api.searchYouTube youtubeQuery with
      | Except.error e =>
        ([Effect.callSearchLyrics s.searchQuery, Effect.setResults lyricsResults,
          Effect.callSearchYouTube youtubeQuery], Except.error e)
      | Except.ok youtubeResults =>
        ([Effect.callSearchLyrics s.searchQuery, Effect.setResults lyricsResults,
          Effect.callSearchYouTube youtubeQuery, Effect.setYoutubeResults youtubeResults],
          Except.ok ())
    else
      ([Effect.callSearchLyrics s.searchQuery, Effect.setResults lyricsResults], Except.ok ())

/-- `handleSearch` (lines 47-64): `setIsLoading(true)`, the `try` block, the
`catch` that logs and swallows the error, the `finally` that resets
`isLoading`.  Returns the effects in order and how the call completes. -/
def handleSearch {σ : Type} (api : Api) (s : AppState σ) : List Effect × Except JsError Unit :=
  match handleSearchTry api s with
  | (body, Except.error e) =>
    ([Effect.setIsLoading true] ++ body ++ [Effect.consoleError e] ++ [Effect.setIsLoading false],
      Except.ok ())
  | (body, Except.ok ()) =>
    ([Effect.setIsLoading true] ++ body ++ [Effect.setIsLoading false], Except.ok ())

/-- The state after one effect: a setter replaces its cell, the other effects
leave the state alone. -/
def applyEffect {σ : Type} (s : AppState σ) : Effect → AppState σ
  | Effect.setIsLoading b => { s with isLoading := b }
  | Effect.setResults r => { s with results := r }
  | Effect.setYoutubeResults y => { s with youtubeResults := y }
  | Effect.callSearchLyrics _ => s
  | Effect.callSearchYouTube _ => s
  | Effect.consoleError _ => s

/-- The state after a sequence of effects. -/
def runEffects {σ : Type} (s : AppState σ) (effects : List Effect) : AppState σ :=
  effects.foldl applyEffect s

/-- The calls of the two search clients among `effects`, in order. -/
def apiCalls (effects : List Effect) : List Effect :=
  effects.filter fun e =>
    match e with
    | Effect.callSearchLyrics _ => true
    | Effect.callSearchYouTube _ => true
    | _ => false

/-- What can happen to the App: the splash timer ends (`setIsReady(true)`,
line 30), the dark-mode switch (line 83), typing into the search box
(line 95), a press on the lyrics list item at `index` (line 112), and one
effect of a `handleSearch` call in progress (lines 47-64), whose setters may
land between any two other events. -/
inductive Event where
  | ready
  | setDarkMode (b : Bool)
  | changeText (text : String)
  | pressLyric (index : Nat)
  | searchEffect (e : Effect)
deriving DecidableEq

/-- One transition of the App, `none` when the UI does not offer the event in
state `s`: nothing is rendered before `isReady` (line 43); the search box and
the lyrics list exist only in the search view, `!selectedLyric` (line 87); the
detail view `ClipPreview` receives no callback (lines 137-144). -/
def step {σ : Type} (locate : LyricsValue → String → σ) (s : AppState σ) :
    Event → Option (AppState σ)
  | Event.ready => some { s with isReady := true }
  | Event.setDarkMode b =>
    if s.isReady then some { s with darkMode := b } else none
  | Event.changeText text =>
    if s.isReady && s.selectedLyric.isNone then some { s with searchQuery := text } else none
  | Event.pressLyric index =>
    if s.isReady && s.selectedLyric.isNone then
      match s.results[index]? with
      | some item => some (afterHandler s (onSelect locate s item index))
      | none => none
    else none
  | Event.searchEffect e =>
    if s.isReady then some (applyEffect s e) else none

/-- The states the App can be in: the initial state and what `step` leads to. -/
inductive Reachable {σ : Type} (locate : LyricsValue → String → σ) : AppState σ → Prop where
  | init : Reachable locate (initialState σ)
  | next (s s' : AppState σ) (ev : Event) :
      Reachable locate s → step locate s ev = some s' → Reachable locate s'


/-- The state after a sequence of events, `none` as soon as one of them is not
offered. -/
def runEvents {σ : Type} (locate : LyricsValue → String → σ) (s : AppState σ) :
    List Event → Option (AppState σ)
  | [] => some s
  | ev :: rest =>
    match step locate s ev with
    | some s' => runEvents locate s' rest
    | none => none

/-- A locator that returns the two arguments it was called with. -/
def recordArguments (text : LyricsValue) (query : String) : LyricsValue × String :=
  (text, query)

/-- A lyrics search result used in the examples. -/
def sampleTrack : LyricsResult :=
  { track :=
      { lyrics := LyricsValue.raw "I walk alone\nLove is all I need"
        track_name := "Alone"
        artist_name := "Nobody" } }

/-- A video search result used in the examples. -/
def sampleVideo : YouTubeVideo :=
  { id := { videoId := "v1" } }

/-- Search clients that resolve to one result each. -/
def sampleApi : Api :=
  { searchLyrics := fun _ => Except.ok [sampleTrack]
    searchYouTube := fun _ => Except.ok [sampleVideo] }

/-- The search view after the query "love" was typed, one lyrics result
listed, no video result. -/
def sampleSearchState : AppState (LyricsValue × String) :=
  { isReady := true
    darkMode := false
    searchQuery := "love"
    results := [sampleTrack]
    youtubeResults := []
    selectedLyric := none
    isLoading := false }

/-- The events that lead from the initial state to a detail view: the splash
timer, typing "love", a search that stores one lyrics and one video result,
and a press on the first list item. -/
def sampleEvents : List Event :=
  [Event.ready, Event.changeText "love",
   Event.searchEffect (Effect.setResults [sampleTrack]),
   Event.searchEffect (Effect.setYoutubeResults [sampleVideo]),
   Event.pressLyric 0]

/-- The detail view reached by `sampleEvents`. -/
def sampleDetailState : AppState (LyricsValue × String) :=
  { isReady := true
    darkMode := false
    searchQuery := "love"
    results := [sampleTrack]
    youtubeResults := [sampleVideo]
    selectedLyric := some
      { lyric := (LyricsValue.raw "I walk alone\nLove is all I need", "love")
        songTitle := "Alone"
        artist := "Nobody"
        videoId := "v1"
        fullLyrics := LyricsValue.raw "I walk alone\nLove is all I need" }
    isLoading := false }

/-! ## Lemmas on the locator -/

theorem startsWith_iff (l q : List Char) :
    startsWith l q = true ↔ ∃ t, l = q ++ t := by
  induction l generalizing q with
  | nil =>
    cases q with
    | nil => simp [startsWith]
    | cons b bs => simp [startsWith]
  | cons a as ih =>
    cases q with
    | nil => simp [startsWith]
    | cons b bs =>
      simp only [startsWith, Bool.and_eq_true, beq_iff_eq, ih, List.cons_append, List.cons.injEq]
      constructor
      · rintro ⟨rfl, t, rfl⟩
        exact ⟨t, rfl, rfl⟩
      · rintro ⟨t, rfl, rfl⟩
        exact ⟨rfl, t, rfl⟩

theorem includes_iff (l q : List Char) :
    includes l q = true ↔ ∃ p t, l = p ++ q ++ t := by
  induction l with
  | nil =>
    simp only [includes, startsWith_iff]
    constructor
    · rintro ⟨t, h⟩
      exact ⟨[], t, by simpa using h⟩
    · rintro ⟨p, t, h⟩
      have h1 : p ++ q ++ t = [] := h.symm
      simp only [List.append_eq_nil] at h1
      obtain ⟨⟨-, rfl⟩, rfl⟩ := h1
      exact ⟨[], rfl⟩
  | cons a as ih =>
    simp only [includes, Bool.or_eq_true, startsWith_iff, ih]
    constructor
    · rintro (⟨t, h⟩ | ⟨p, t, h⟩)
      · exact ⟨[], t, by simpa using h⟩
      · exact ⟨a :: p, t, by simp [h]⟩
    · rintro ⟨p, t, h⟩
      cases p with
      | nil => exact Or.inl ⟨t, by simpa using h⟩
      | cons b p =>
        simp only [List.cons_append, List.cons.injEq] at h
        exact Or.inr ⟨p, t, h.2⟩

theorem firstMatch_lt (lower : Char → List Char) (text : List String) (query : String) (i : Nat)
    (h : firstMatch lower text query = some i) : i < text.length := by
  induction text generalizing i with
  | nil => simp [firstMatch] at h
  | cons l rest ih =>
    simp only [firstMatch] at h
    split at h
    · simp only [Option.some.injEq] at h
      subst h
      simp
    · simp only [Option.map_eq_some'] at h
      obtain ⟨j, hj, rfl⟩ := h
      have := ih j hj
      simp only [List.length_cons]
      omega

theorem firstMatch_lowest (lower : Char → List Char) (text : List String) (query : String) (i : Nat)
    (hm : ∃ l, text[i]? = some l ∧ lineMatches lower query l = true)
    (hlow : ∀ j l, j < i → text[j]? = some l → lineMatches lower query l = false) :
    firstMatch lower text query = some i := by
  induction text generalizing i with
  | nil =>
    obtain ⟨l, hl, -⟩ := hm
    simp at hl
  | cons a rest ih =>
    cases i with
    | zero =>
      obtain ⟨l, hl, hq⟩ := hm
      simp only [List.getElem?_cons_zero, Option.some.injEq] at hl
      subst hl
      simp [firstMatch, hq]
    | succ n =>
      have h0 : lineMatches lower query a = false := hlow 0 a (by omega) (by simp)
      have hrec : firstMatch lower rest query = some n := by
        apply ih
        · simpa using hm
        · intro j l hj hl
          exact hlow (j + 1) l (by omega) (by simpa using hl)
      simp [firstMatch, h0, hrec]

theorem firstMatch_none_of (lower : Char → List Char) (text : List String) (query : String)
    (h : firstMatch lower text query = none) (j : Nat) (l : String) (hl : text[j]? = some l) :
    lineMatches lower query l = false := by
  induction text generalizing j with
  | nil => simp at hl
  | cons a rest ih =>
    simp only [firstMatch] at h
    split at h
    · simp at h
    · rename_i hna
      simp only [Option.map_eq_none'] at h
      cases j with
      | zero =>
        simp only [List.getElem?_cons_zero, Option.some.injEq] at hl
        subst hl
        simpa using hna
      | succ n => exact ih h n (by simpa using hl)

theorem lineWindow_getElem? (text : List String) (lo hi : Int) (j : Nat)
    (hj : j < (lineWindow text lo hi).lines.length) :
    (lineWindow text lo hi).lines[j]? = text[(lineWindow text lo hi).start + j]? := by
  simp only [lineWindow, List.length_take, List.length_drop] at hj ⊢
  rw [List.getElem?_take, if_pos (by omega), List.getElem?_drop]


theorem flatMap_lower_ascii (lower : Char → List Char)
    (hlower : ∀ c : Char, c.toNat < 128 → lower c = [c.toLower])
    (cs : List Char) (hcs : (cs.all fun c => decide (c.toNat < 128)) = true) :
    cs.flatMap lower = cs.flatMap asciiLower := by
  induction cs with
  | nil => rfl
  | cons c rest ih =>
    simp only [List.all_cons, Bool.and_eq_true, decide_eq_true_eq] at hcs
    simp only [List.flatMap_cons, ih hcs.2, hlower c hcs.1, asciiLower]

theorem toLowerCase_ascii (lower : Char → List Char)
    (hlower : ∀ c : Char, c.toNat < 128 → lower c = [c.toLower])
    (s : String) (hs : isAscii s = true) :
    toLowerCase lower s = toLowerCase asciiLower s :=
  flatMap_lower_ascii lower hlower s.data hs

theorem firstMatch_ascii (lower : Char → List Char)
    (hlower : ∀ c : Char, c.toNat < 128 → lower c = [c.toLower])
    (text : List String) (query : String)
    (htext : text.all isAscii = true) (hquery : isAscii query = true) :
    firstMatch lower text query = firstMatch asciiLower text query := by
  induction text with
  | nil => rfl
  | cons l rest ih =>
    simp only [List.all_cons, Bool.and_eq_true] at htext
    simp only [firstMatch, lineMatches, toLowerCase_ascii lower hlower l htext.1,
      toLowerCase_ascii lower hlower query hquery, ih htext.2]

theorem findRelevantLyricSnippet_ascii (lower : Char → List Char)
    (hlower : ∀ c : Char, c.toNat < 128 → lower c = [c.toLower])
    (k d : Nat) (text : List String) (query : String)
    (htext : text.all isAscii = true) (hquery : isAscii query = true) :
    findRelevantLyricSnippet lower k d text query
      = findRelevantLyricSnippet asciiLower k d text query := by
  simp only [findRelevantLyricSnippet, firstMatch_ascii lower hlower text query htext hquery]

theorem lowerCase_ascii (c : Char) (hc : c.toNat < 128) : lowerCase c = [c.toLower] := by
  unfold lowerCase
  rw [if_neg (by omega), if_neg (by omega), if_neg (by omega)]

theorem data_isEmpty_eq_false (query : String) (h : query ≠ "") :
    query.data.isEmpty = false := by
  rcases query with ⟨data⟩
  cases data with
  | nil => exact absurd rfl h
  | cons c cs => rfl

theorem lineWindow_clamped (k : Nat) (text : List String) (i : Nat) (hi : i < text.length) :
    ((matchedWindow k text i).start : Int) = max 0 ((i : Int) - (k : Int)) ∧
    (matchedWindow k text i).endIndex = min (lastIndex text) ((i : Int) + (k : Int)) ∧
    (matchedWindow k text i).start + (matchedWindow k text i).lines.length ≤ text.length ∧
    0 < (matchedWindow k text i).lines.length := by
  simp only [matchedWindow, lineWindow, Snippet.endIndex, lastIndex, List.length_take,
    List.length_drop]
  omega

theorem matchedWindow_is_window (k : Nat) (text : List String) (i : Nat)
    (hi : i < text.length) :
    ((matchedWindow k text i).start : Int) = max 0 ((i : Int) - (k : Int)) ∧
    (matchedWindow k text i).endIndex = min (lastIndex text) ((i : Int) + (k : Int)) ∧
    ∀ j, j < (matchedWindow k text i).lines.length →
      (matchedWindow k text i).lines[j]? = text[(matchedWindow k text i).start + j]? := by
  obtain ⟨h1, h2, -, -⟩ := lineWindow_clamped k text i hi
  exact ⟨h1, h2, fun j hj => lineWindow_getElem? text _ _ j hj⟩

/-- The default window of `k + 1` lines is the window around line 0. -/
theorem defaultWindow_is_window (k : Nat) (text : List String) :
    ((defaultWindow (defaultWindowSize k) text).start : Int)
      = max 0 (((0 : Nat) : Int) - (k : Int)) ∧
    (defaultWindow (defaultWindowSize k) text).endIndex
      = min (lastIndex text) (((0 : Nat) : Int) + (k : Int)) ∧
    ∀ j, j < (defaultWindow (defaultWindowSize k) text).lines.length →
      (defaultWindow (defaultWindowSize k) text).lines[j]?
        = text[(defaultWindow (defaultWindowSize k) text).start + j]? := by
  refine ⟨?_, ?_, ?_⟩
  · simp only [defaultWindow]
    omega
  · simp only [defaultWindow, defaultWindowSize, Snippet.endIndex, lastIndex, List.length_take]
    omega
  · intro j hj
    simp only [defaultWindow, defaultWindowSize, List.length_take] at hj ⊢
    rw [List.getElem?_take, if_pos (by omega), Nat.zero_add]

/-- With a non-empty query, the first matching line gives the matched window,
whatever the default window size. -/
theorem findRelevantLyricSnippet_of_match (lower : Char → List Char) (k d : Nat)
    (text : List String) (query : String) (i : Nat) (line : String)
    (hq : query.data.isEmpty = false)
    (hline : text[i]? = some line)
    (hsub : ∃ p t, toLowerCase lower line = p ++ toLowerCase lower query ++ t)
    (hlow : ∀ j l, j < i → text[j]? = some l →
      ¬ ∃ p t, toLowerCase lower l = p ++ toLowerCase lower query ++ t) :
    i < text.length ∧ findRelevantLyricSnippet lower k d text query = matchedWindow k text i := by
  have hfirst : firstMatch lower text query = some i := by
    apply firstMatch_lowest
    · exact ⟨line, hline, (includes_iff _ _).2 hsub⟩
    · intro j l hj hl
      have hno := hlow j l hj hl
      cases hb : lineMatches lower query l with
      | false => rfl
      | true => exact absurd ((includes_iff _ _).1 hb) hno
  refine ⟨firstMatch_lt lower text query i hfirst, ?_⟩
  simp [findRelevantLyricSnippet, hq, hfirst]

/-! ## The locator: claims C1 and C2 -/

/-- C1: for every text and every query (the empty one included), if line `i`,
lower-cased, contains the lower-cased query as a substring and no line before
it does, the locator returns the lines of the window
`[max(0, i-k), min(lastIndex, i+k)]`: that start index, that end index, and
the text's own lines in between.  This holds for every case mapping, with the
default window of `k + 1` lines; for a non-empty query it holds whatever the
default window size.  Query "LOVE" matches the line "i love you", and the
four-line scenario with query "love" and radius 2 gives all four lines, start
index 0, for every case mapping that lower-cases the ASCII letters. -/
theorem findRelevantLyricSnippet_first_match :
    (∀ (lower : Char → List Char) (k : Nat) (text : List String) (query : String) (i : Nat)
        (line : String),
      text[i]? = some line →
      (∃ p t, toLowerCase lower line = p ++ toLowerCase lower query ++ t) →
      (∀ j l, j < i → text[j]? = some l →
        ¬ ∃ p t, toLowerCase lower l = p ++ toLowerCase lower query ++ t) →
      ((findRelevantLyricSnippet lower k (defaultWindowSize k) text query).start : Int)
        = max 0 ((i : Int) - (k : Int)) ∧
      (findRelevantLyricSnippet lower k (defaultWindowSize k) text query).endIndex
        = min (lastIndex text) ((i : Int) + (k : Int)) ∧
      ∀ j, j < (findRelevantLyricSnippet lower k (defaultWindowSize k) text query).lines.length →
        (findRelevantLyricSnippet lower k (defaultWindowSize k) text query).lines[j]?
          = text[(findRelevantLyricSnippet lower k (defaultWindowSize k) text query).start + j]?) ∧
    (∀ (lower : Char → List Char) (k d : Nat) (text : List String) (query : String) (i : Nat)
        (line : String),
      query ≠ "" →
      text[i]? = some line →
      (∃ p t, toLowerCase lower line = p ++ toLowerCase lower query ++ t) →
      (∀ j l, j < i → text[j]? = some l →
        ¬ ∃ p t, toLowerCase lower l = p ++ toLowerCase lower query ++ t) →
      ((findRelevantLyricSnippet lower k d text query).start : Int)
        = max 0 ((i : Int) - (k : Int)) ∧
      (findRelevantLyricSnippet lower k d text query).endIndex
        = min (lastIndex text) ((i : Int) + (k : Int)) ∧
      ∀ j, j < (findRelevantLyricSnippet lower k d text query).lines.length →
        (findRelevantLyricSnippet lower k d text query).lines[j]?
          = text[(findRelevantLyricSnippet lower k d text query).start + j]?) ∧
    (∀ lower : Char → List Char, (∀ c : Char, c.toNat < 128 → lower c = [c.toLower]) →
      lineMatches lower "LOVE" "i love you" = true) ∧
    (∀ (lower : Char → List Char) (d : Nat),
      (∀ c : Char, c.toNat < 128 → lower c = [c.toLower]) →
      findRelevantLyricSnippet lower 2 d
        ["I walk alone", "Thinking of you", "Love is all I need", "Night falls again"] "love"
      = { lines := ["I walk alone", "Thinking of you", "Love is all I need", "Night falls again"],
          start := 0 }) := by
  refine ⟨?_, ?_, ?_, ?_⟩
  · intro lower k text query i line hline hsub hlow
    cases hq : query.data.isEmpty with
    | false =>
      obtain ⟨hi, hsn⟩ :=
        findRelevantLyricSnippet_of_match lower k (defaultWindowSize k) text query i line hq
          hline hsub hlow
      rw [hsn]
      exact matchedWindow_is_window k text i hi
    | true =>
      have hdata : query.data = [] := List.isEmpty_iff.1 hq
      have hnorm : toLowerCase lower query = [] := by simp [toLowerCase, hdata]
      have hi : i < text.length := by
        by_contra hge
        have hnone : text[i]? = none := List.getElem?_eq_none (by omega)
        rw [hnone] at hline
        exact Option.noConfusion hline
      have hi0 : i = 0 := by
        by_contra hne
        have h0 : text[0]? = some (text.get ⟨0, by omega⟩) := List.getElem?_eq_getElem (by omega)
        exact hlow 0 _ (by omega) h0 ⟨[], toLowerCase lower (text.get ⟨0, by omega⟩), by
          rw [hnorm]
          rfl⟩
      subst hi0
      have hsn : findRelevantLyricSnippet lower k (defaultWindowSize k) text query
          = defaultWindow (defaultWindowSize k) text := by
        simp [findRelevantLyricSnippet, hq]
      rw [hsn]
      exact defaultWindow_is_window k text
  · intro lower k d text query i line hne hline hsub hlow
    obtain ⟨hi, hsn⟩ :=
      findRelevantLyricSnippet_of_match lower k d text query i line
        (data_isEmpty_eq_false query hne) hline hsub hlow
    rw [hsn]
    exact matchedWindow_is_window k text i hi
  · intro lower hlower
    simp only [lineMatches, toLowerCase_ascii lower hlower "LOVE" (by decide),
      toLowerCase_ascii lower hlower "i love you" (by decide)]
    decide
  · intro lower d hlower
    rw [findRelevantLyricSnippet_ascii lower hlower 2 d _ _ (by decide) (by decide)]
    rfl

/-- Witness for C1: the scenario of the spec under the wider lower-casing,
where line 2 is the first line containing "love". -/
theorem findRelevantLyricSnippet_first_match_witness :
    ((findRelevantLyricSnippet lowerCase 2 (defaultWindowSize 2)
        ["I walk alone", "Thinking of you", "Love is all I need", "Night falls again"]
        "love").start : Int) = max 0 (((2 : Nat) : Int) - ((2 : Nat) : Int)) ∧
    (findRelevantLyricSnippet lowerCase 2 (defaultWindowSize 2)
        ["I walk alone", "Thinking of you", "Love is all I need", "Night falls again"]
        "love").endIndex
      = min (lastIndex ["I walk alone", "Thinking of you", "Love is all I need",
          "Night falls again"]) (((2 : Nat) : Int) + ((2 : Nat) : Int)) :=
  have h := findRelevantLyricSnippet_first_match.1 lowerCase 2
    ["I walk alone", "Thinking of you", "Love is all I need", "Night falls again"]
    "love" 2 "Love is all I need" (by decide)
    ((includes_iff _ _).1 (by decide))
    (by
      intro j l hj hl hsub
      have hb : lineMatches lowerCase "love" l = true := (includes_iff _ _).2 hsub
      have hj2 : j = 0 ∨ j = 1 := by omega
      rcases hj2 with rfl | rfl
      · simp only [List.getElem?_cons_zero, Option.some.injEq] at hl
        subst hl
        exact absurd hb (by decide)
      · simp only [List.getElem?_cons_succ, List.getElem?_cons_zero, Option.some.injEq] at hl
        subst hl
        exact absurd hb (by decide))
  ⟨h.1, h.2.1⟩

/-- The wider lower-casing matches across accents and alphabets, and the
empty query on a five-line text gives the window around line 0. -/
theorem lowerCase_examples :
    lineMatches lowerCase "été" "ÉTÉ COMME HIVER" = true ∧
    lineMatches lowerCase "ΑΓΑΠΗ" "αγαπη μου" = true ∧
    findRelevantLyricSnippet lowerCase 2 (defaultWindowSize 2) ["a", "b", "c", "d", "e"] ""
      = { lines := ["a", "b", "c"], start := 0 } := by
  decide

/-- C2, as stated, fails at its own scenario: for the empty text the result is
the empty window with start index 0, its end index is -1, and
`0 <= start <= end <= lastIndex` does not hold (there `lastIndex` is -1). -/
theorem findRelevantLyricSnippet_empty_text_counterexample :
    findRelevantLyricSnippet lowerCase 2 (matchedWindowSize 2) [] "anything"
      = { lines := [], start := 0 } ∧
    (findRelevantLyricSnippet lowerCase 2 (matchedWindowSize 2) [] "anything").endIndex = -1 ∧
    lastIndex [] = -1 ∧
    ¬ ((0 : Int) ≤
        ((findRelevantLyricSnippet lowerCase 2 (matchedWindowSize 2) [] "anything").start : Int) ∧
       ((findRelevantLyricSnippet lowerCase 2 (matchedWindowSize 2) [] "anything").start : Int)
         ≤ (findRelevantLyricSnippet lowerCase 2 (matchedWindowSize 2) [] "anything").endIndex ∧
       (findRelevantLyricSnippet lowerCase 2 (matchedWindowSize 2) [] "anything").endIndex
         ≤ lastIndex []) := by
  decide

theorem take_length_take (l : List String) (n : Nat) :
    l.take (l.take n).length = l.take n := by
  induction l generalizing n with
  | nil => simp
  | cons a as ih =>
    cases n with
    | zero => simp
    | succ m => simp [ih]

theorem findRelevantLyricSnippet_cases (lower : Char → List Char) (k d : Nat) (text : List String) (query : String) :
    findRelevantLyricSnippet lower k d text query = defaultWindow d text ∨
    ∃ i, i < text.length ∧ findRelevantLyricSnippet lower k d text query = matchedWindow k text i := by
  unfold findRelevantLyricSnippet
  split
  · exact Or.inl rfl
  · split
    · exact Or.inl rfl
    · rename_i i hi
      exact Or.inr ⟨i, firstMatch_lt lower text query i hi, rfl⟩

/-- C2 (amended): the locator is total, and for every text and query the
snippet's lines are the contiguous run of the text's lines that starts at its
start index and lies inside the text, whatever the case mapping.  For every
non-empty text (and a default window of at least one line) the indices satisfy
`0 <= start <= end <= lastIndex(text)`.  For the empty text the result is the
empty window with start index 0, for which no such end index exists. -/
theorem findRelevantLyricSnippet_in_bounds :
    (∀ (lower : Char → List Char) (k d : Nat) (text : List String) (query : String),
      (findRelevantLyricSnippet lower k d text query).lines
        = (text.drop (findRelevantLyricSnippet lower k d text query).start).take
            (findRelevantLyricSnippet lower k d text query).lines.length ∧
      (findRelevantLyricSnippet lower k d text query).start
        + (findRelevantLyricSnippet lower k d text query).lines.length ≤ text.length) ∧
    (∀ (lower : Char → List Char) (k d : Nat) (text : List String) (query : String),
      text ≠ [] → 0 < d →
      (0 : Int) ≤ ((findRelevantLyricSnippet lower k d text query).start : Int) ∧
      ((findRelevantLyricSnippet lower k d text query).start : Int)
        ≤ (findRelevantLyricSnippet lower k d text query).endIndex ∧
      (findRelevantLyricSnippet lower k d text query).endIndex ≤ lastIndex text) ∧
    (∀ (lower : Char → List Char) (k d : Nat) (query : String),
      findRelevantLyricSnippet lower k d [] query = { lines := [], start := 0 }) := by
  refine ⟨?_, ?_, ?_⟩
  · intro lower k d text query
    rcases findRelevantLyricSnippet_cases lower k d text query with h | ⟨i, hi, h⟩
    · rw [h]
      refine ⟨?_, ?_⟩
      · simp only [defaultWindow, List.drop_zero]
        exact (take_length_take text d).symm
      · simp only [defaultWindow, List.length_take]
        omega
    · rw [h]
      obtain ⟨-, -, h3, -⟩ := lineWindow_clamped k text i hi
      refine ⟨?_, h3⟩
      simp only [matchedWindow, lineWindow]
      exact (take_length_take _ _).symm
  · intro lower k d text query htext hd
    have hlen : 0 < text.length := List.length_pos.2 htext
    rcases findRelevantLyricSnippet_cases lower k d text query with h | ⟨i, hi, h⟩
    · rw [h]
      simp only [defaultWindow, Snippet.endIndex, lastIndex, List.length_take]
      omega
    · rw [h]
      obtain ⟨h1, h2, -, h4⟩ := lineWindow_clamped k text i hi
      refine ⟨by omega, ?_, ?_⟩
      · simp only [Snippet.endIndex]
        omega
      · rw [h2]
        exact min_le_left _ _
  · intro lower k d query
    rcases findRelevantLyricSnippet_cases lower k d [] query with h | ⟨i, hi, -⟩
    · rw [h]
      simp [defaultWindow]
    · simp at hi

/-- Witness for C2: a two-line text, a query that matches nothing, radius 2
and a default window of 5 lines. -/
theorem findRelevantLyricSnippet_in_bounds_witness :
    (0 : Int) ≤ ((findRelevantLyricSnippet lowerCase 2 5 ["la la", "na na"] "love").start : Int) ∧
    ((findRelevantLyricSnippet lowerCase 2 5 ["la la", "na na"] "love").start : Int)
      ≤ (findRelevantLyricSnippet lowerCase 2 5 ["la la", "na na"] "love").endIndex ∧
    (findRelevantLyricSnippet lowerCase 2 5 ["la la", "na na"] "love").endIndex
      ≤ lastIndex ["la la", "na na"] :=
  findRelevantLyricSnippet_in_bounds.2.1 lowerCase 2 5 ["la la", "na na"] "love" (by decide) (by decide)

/-! ## Lemmas on the App -/

theorem handleSearch_lyrics_error {σ : Type} (api : Api) (s : AppState σ) (e : JsError)
    (h : api.searchLyrics s.searchQuery = Except.error e) :
    handleSearch api s =
      ([Effect.setIsLoading true, Effect.callSearchLyrics s.searchQuery, Effect.consoleError e,
        Effect.setIsLoading false], Except.ok ()) := by
  simp [handleSearch, handleSearchTry, h]

theorem handleSearch_lyrics_empty {σ : Type} (api : Api) (s : AppState σ)
    (h : api.searchLyrics s.searchQuery = Except.ok []) :
    handleSearch api s =
      ([Effect.setIsLoading true, Effect.callSearchLyrics s.searchQuery, Effect.setResults [],
        Effect.setIsLoading false], Except.ok ()) := by
  simp [handleSearch, handleSearchTry, h]

theorem handleSearch_youtube_error {σ : Type} (api : Api) (s : AppState σ)
    (first : LyricsResult) (rest : List LyricsResult) (e : JsError)
    (h : api.searchLyrics s.searchQuery = Except.ok (first :: rest))
    (hy : api.searchYouTube (first.track.track_name ++ " " ++ first.track.artist_name)
      = Except.error e) :
    handleSearch api s =
      ([Effect.setIsLoading true, Effect.callSearchLyrics s.searchQuery,
        Effect.setResults (first :: rest),
        Effect.callSearchYouTube (first.track.track_name ++ " " ++ first.track.artist_name),
        Effect.consoleError e, Effect.setIsLoading false], Except.ok ()) := by
  simp [handleSearch, handleSearchTry, h, hy]

theorem handleSearch_both_ok {σ : Type} (api : Api) (s : AppState σ)
    (first : LyricsResult) (rest : List LyricsResult) (y : List YouTubeVideo)
    (h : api.searchLyrics s.searchQuery = Except.ok (first :: rest))
    (hy : api.searchYouTube (first.track.track_name ++ " " ++ first.track.artist_name)
      = Except.ok y) :
    handleSearch api s =
      ([Effect.setIsLoading true, Effect.callSearchLyrics s.searchQuery,
        Effect.setResults (first :: rest),
        Effect.callSearchYouTube (first.track.track_name ++ " " ++ first.track.artist_name),
        Effect.setYoutubeResults y, Effect.setIsLoading false], Except.ok ()) := by
  simp [handleSearch, handleSearchTry, h, hy]

/-- The four ways a `handleSearch` call can go. -/
theorem handleSearch_outcomes {σ : Type} (api : Api) (s : AppState σ) :
    (∃ e, api.searchLyrics s.searchQuery = Except.error e) ∨
    api.searchLyrics s.searchQuery = Except.ok [] ∨
    (∃ first rest e, api.searchLyrics s.searchQuery = Except.ok (first :: rest) ∧
      api.searchYouTube (first.track.track_name ++ " " ++ first.track.artist_name)
        = Except.error e) ∨
    (∃ first rest y, api.searchLyrics s.searchQuery = Except.ok (first :: rest) ∧
      api.searchYouTube (first.track.track_name ++ " " ++ first.track.artist_name)
        = Except.ok y) := by
  cases h : api.searchLyrics s.searchQuery with
  | error e => exact Or.inl ⟨e, rfl⟩
  | ok lr =>
    cases lr with
    | nil => exact Or.inr (Or.inl rfl)
    | cons first rest =>
      cases hy : api.searchYouTube (first.track.track_name ++ " " ++ first.track.artist_name) with
      | error e => exact Or.inr (Or.inr (Or.inl ⟨first, rest, e, rfl, hy⟩))
      | ok y => exact Or.inr (Or.inr (Or.inr ⟨first, rest, y, rfl, hy⟩))

theorem step_keeps_selection {σ : Type} (locate : LyricsValue → String → σ)
    (s s' : AppState σ) (ev : Event) (sl : SelectedLyric σ)
    (hsel : s.selectedLyric = some sl) (hstep : step locate s ev = some s') :
    s'.selectedLyric = some sl ∧ s'.searchQuery = s.searchQuery := by
  cases ev with
  | ready =>
    simp only [step, Option.some.injEq] at hstep
    subst hstep
    exact ⟨hsel, rfl⟩
  | setDarkMode b =>
    simp only [step] at hstep
    split at hstep
    · simp only [Option.some.injEq] at hstep
      subst hstep
      exact ⟨hsel, rfl⟩
    · simp at hstep
  | changeText text =>
    simp [step, hsel] at hstep
  | pressLyric index =>
    simp [step, hsel] at hstep
  | searchEffect e =>
    simp only [step] at hstep
    split at hstep
    · simp only [Option.some.injEq] at hstep
      subst hstep
      cases e <;> exact ⟨hsel, rfl⟩
    · simp at hstep

/-! ## handleSelectLyric: claims C3, C7, C8 -/

/-- C3: for every lyrics result `track` and every video result `youtubeVideo`,
`handleSelectLyric(track, youtubeVideo)` sets `selectedLyric` to the object
whose `lyric` is the locator applied to `track.track.lyrics` and the current
`searchQuery`, whose `songTitle` and `artist` are the track's `track_name` and
`artist_name`, whose `videoId` is `youtubeVideo.id.videoId` and whose
`fullLyrics` is `track.track.lyrics`; `searchQuery`, `results`,
`youtubeResults`, `isLoading` and `darkMode` are unchanged. -/
theorem handleSelectLyric_sets_selectedLyric {σ : Type} (locate : LyricsValue → String → σ)
    (s : AppState σ) (track : LyricsResult) (youtubeVideo : YouTubeVideo) :
    ∃ s', handleSelectLyric locate s track (some youtubeVideo) = Except.ok s' ∧
      s'.selectedLyric = some
        { lyric := locate track.track.lyrics s.searchQuery
          songTitle := track.track.track_name
          artist := track.track.artist_name
          videoId := youtubeVideo.id.videoId
          fullLyrics := track.track.lyrics } ∧
      s'.searchQuery = s.searchQuery ∧ s'.results = s.results ∧
      s'.youtubeResults = s.youtubeResults ∧ s'.isLoading = s.isLoading ∧
      s'.darkMode = s.darkMode ∧ s'.isReady = s.isReady :=
  ⟨_, rfl, rfl, rfl, rfl, rfl, rfl, rfl, rfl⟩

/-- C7, as stated, fails: for a track whose lyrics are the raw content
"I walk alone\nLove is all I need", the locator is called with that raw
content, not with the two lines obtained by splitting it. -/
theorem handleSelectLyric_unsplit_counterexample :
    splitLines "I walk alone\nLove is all I need" = ["I walk alone", "Love is all I need"] ∧
    (afterHandler sampleSearchState
        (handleSelectLyric recordArguments sampleSearchState sampleTrack (some sampleVideo))
      ).selectedLyric.map (fun sl => sl.lyric)
      = some (LyricsValue.raw "I walk alone\nLove is all I need", "love") ∧
    (afterHandler sampleSearchState
        (handleSelectLyric recordArguments sampleSearchState sampleTrack (some sampleVideo))
      ).selectedLyric.map (fun sl => sl.lyric)
      ≠ some (LyricsValue.lines (splitLines "I walk alone\nLove is all I need"), "love") := by
  decide

/-- C7 (amended): the caller does not split.  For every selected track the
first argument `handleSelectLyric` passes to the locator is
`track.track.lyrics` itself, the very value it stores as `fullLyrics`, and the
second argument is the current `searchQuery`. -/
theorem handleSelectLyric_locator_arguments :
    (∀ (s : AppState (LyricsValue × String)) (track : LyricsResult) (youtubeVideo : YouTubeVideo),
      ∃ s' sl, handleSelectLyric recordArguments s track (some youtubeVideo) = Except.ok s' ∧
        s'.selectedLyric = some sl ∧
        sl.lyric = (track.track.lyrics, s.searchQuery) ∧
        sl.fullLyrics = track.track.lyrics) ∧
    (∀ (σ : Type) (locate : LyricsValue → String → σ) (s : AppState σ) (track : LyricsResult)
        (youtubeVideo : YouTubeVideo),
      ∃ s' sl, handleSelectLyric locate s track (some youtubeVideo) = Except.ok s' ∧
        s'.selectedLyric = some sl ∧
        sl.lyric = locate sl.fullLyrics s.searchQuery ∧
        sl.fullLyrics = track.track.lyrics) :=
  ⟨fun _ _ _ => ⟨_, _, rfl, rfl, rfl, rfl⟩, fun _ _ _ _ _ => ⟨_, _, rfl, rfl, rfl, rfl⟩⟩

/-- C8: the list item at `index` is paired with `youtubeResults[index]`.  The
selection succeeds and stores a `selectedLyric` exactly when
`index < youtubeResults.length`, and then its `videoId` is that of
`youtubeResults[index]`.  For every `index >= youtubeResults.length` it throws
a TypeError and the whole state is as before. -/
theorem onSelect_succeeds_iff {σ : Type} (locate : LyricsValue → String → σ)
    (s : AppState σ) (item : LyricsResult) (index : Nat) :
    ((∃ s' sl, onSelect locate s item index = Except.ok s' ∧ s'.selectedLyric = some sl)
      ↔ index < s.youtubeResults.length) ∧
    (∀ video, s.youtubeResults[index]? = some video →
      ∃ s' sl, onSelect locate s item index = Except.ok s' ∧ s'.selectedLyric = some sl ∧
        sl.videoId = video.id.videoId ∧ sl.fullLyrics = item.track.lyrics) ∧
    (s.youtubeResults.length ≤ index →
      (∃ what, onSelect locate s item index = Except.error (JsError.typeError what)) ∧
      afterHandler s (onSelect locate s item index) = s) := by
  refine ⟨?_, ?_, ?_⟩
  · constructor
    · rintro ⟨s', sl, hok, -⟩
      by_contra hlt
      have hnone : s.youtubeResults[index]? = none := List.getElem?_eq_none (by omega)
      simp [onSelect, handleSelectLyric, hnone] at hok
    · intro hlt
      have hsome : s.youtubeResults[index]? = some (s.youtubeResults.get ⟨index, hlt⟩) :=
        List.getElem?_eq_getElem hlt
      unfold onSelect
      rw [hsome]
      exact ⟨_, _, rfl, rfl⟩
  · intro video hv
    unfold onSelect
    rw [hv]
    exact ⟨_, _, rfl, rfl, rfl, rfl⟩
  · intro hge
    have hnone : s.youtubeResults[index]? = none := List.getElem?_eq_none hge
    unfold onSelect
    rw [hnone]
    exact ⟨⟨_, rfl⟩, rfl⟩

/-- Witness for C8: a press on the first list item while no video result is
stored. -/
theorem onSelect_succeeds_iff_witness :
    sampleSearchState.youtubeResults.length ≤ 0 ∧
    afterHandler sampleSearchState (onSelect recordArguments sampleSearchState sampleTrack 0)
      = sampleSearchState :=
  ⟨by decide,
    ((onSelect_succeeds_iff recordArguments sampleSearchState sampleTrack 0).2.2
      (by decide)).2⟩

theorem runEffects_frame {σ : Type} (effects : List Effect) (s : AppState σ) :
    (runEffects s effects).searchQuery = s.searchQuery ∧
    (runEffects s effects).selectedLyric = s.selectedLyric ∧
    (runEffects s effects).darkMode = s.darkMode ∧
    (runEffects s effects).isReady = s.isReady := by
  induction effects generalizing s with
  | nil => exact ⟨rfl, rfl, rfl, rfl⟩
  | cons e rest ih =>
    have h := ih (applyEffect s e)
    simp only [runEffects, List.foldl_cons] at h ⊢
    cases e <;> exact h

/-! ## handleSearch: claims C4, C9, C10 -/

/-- C4: `handleSearch` is a sequential two-step composition.  It calls
`searchLyrics(searchQuery)`; when that fails or resolves to an empty array this
is the only call.  When it resolves to a non-empty array, that array is stored
in `results`, then `searchYouTube` is called once, after the store, with
`track_name ++ " " ++ artist_name` of the first result, and what it resolves to
is stored in `youtubeResults`. -/
theorem handleSearch_two_step {σ : Type} (api : Api) (s : AppState σ) :
    (∀ e, api.searchLyrics s.searchQuery = Except.error e →
      apiCalls (handleSearch api s).1 = [Effect.callSearchLyrics s.searchQuery]) ∧
    (api.searchLyrics s.searchQuery = Except.ok [] →
      apiCalls (handleSearch api s).1 = [Effect.callSearchLyrics s.searchQuery] ∧
      (runEffects s (handleSearch api s).1).results = []) ∧
    (∀ first rest, api.searchLyrics s.searchQuery = Except.ok (first :: rest) →
      apiCalls (handleSearch api s).1 =
        [Effect.callSearchLyrics s.searchQuery,
         Effect.callSearchYouTube (first.track.track_name ++ " " ++ first.track.artist_name)] ∧
      (∃ post, (handleSearch api s).1 =
        [Effect.setIsLoading true, Effect.callSearchLyrics s.searchQuery,
         Effect.setResults (first :: rest),
         Effect.callSearchYouTube (first.track.track_name ++ " " ++ first.track.artist_name)]
        ++ post) ∧
      (runEffects s (handleSearch api s).1).results = first :: rest ∧
      ∀ y, api.searchYouTube (first.track.track_name ++ " " ++ first.track.artist_name)
          = Except.ok y →
        (runEffects s (handleSearch api s).1).youtubeResults = y) := by
  refine ⟨?_, ?_, ?_⟩
  · intro e h
    rw [handleSearch_lyrics_error api s e h]
    simp [apiCalls]
  · intro h
    rw [handleSearch_lyrics_empty api s h]
    simp [apiCalls, runEffects, applyEffect]
  · intro first rest h
    cases hy : api.searchYouTube (first.track.track_name ++ " " ++ first.track.artist_name) with
    | error e =>
      rw [handleSearch_youtube_error api s first rest e h hy]
      refine ⟨by simp [apiCalls], ⟨_, rfl⟩, by simp [runEffects, applyEffect], ?_⟩
      intro y hyy
      simp at hyy
    | ok y =>
      rw [handleSearch_both_ok api s first rest y h hy]
      refine ⟨by simp [apiCalls], ⟨_, rfl⟩, by simp [runEffects, applyEffect], ?_⟩
      intro y' hyy
      simp only [Except.ok.injEq] at hyy
      subst hyy
      simp [runEffects, applyEffect]

/-- Witness for C4: both clients resolve to one result. -/
theorem handleSearch_two_step_witness :
    sampleApi.searchLyrics sampleSearchState.searchQuery = Except.ok [sampleTrack] ∧
    apiCalls (handleSearch sampleApi sampleSearchState).1 =
      [Effect.callSearchLyrics sampleSearchState.searchQuery,
       Effect.callSearchYouTube
         (sampleTrack.track.track_name ++ " " ++ sampleTrack.track.artist_name)] :=
  ⟨rfl, ((handleSearch_two_step sampleApi sampleSearchState).2.2 sampleTrack [] rfl).1⟩

/-- C9: `handleSearch` changes `youtubeResults` only when both lookups succeed
with a non-empty lyrics result.  If `searchLyrics` resolves to an empty array,
`results` becomes empty and `youtubeResults` keeps its value; if `searchLyrics`
fails, both keep their values; if `searchYouTube` fails, `results` holds the
new lyrics results and `youtubeResults` keeps its value. -/
theorem handleSearch_youtubeResults_frame {σ : Type} (api : Api) (s : AppState σ) :
    (api.searchLyrics s.searchQuery = Except.ok [] →
      (runEffects s (handleSearch api s).1).results = [] ∧
      (runEffects s (handleSearch api s).1).youtubeResults = s.youtubeResults) ∧
    (∀ e, api.searchLyrics s.searchQuery = Except.error e →
      (runEffects s (handleSearch api s).1).results = s.results ∧
      (runEffects s (handleSearch api s).1).youtubeResults = s.youtubeResults) ∧
    (∀ first rest e, api.searchLyrics s.searchQuery = Except.ok (first :: rest) →
      api.searchYouTube (first.track.track_name ++ " " ++ first.track.artist_name)
        = Except.error e →
      (runEffects s (handleSearch api s).1).results = first :: rest ∧
      (runEffects s (handleSearch api s).1).youtubeResults = s.youtubeResults) ∧
    ((runEffects s (handleSearch api s).1).youtubeResults ≠ s.youtubeResults →
      ∃ first rest y, api.searchLyrics s.searchQuery = Except.ok (first :: rest) ∧
        api.searchYouTube (first.track.track_name ++ " " ++ first.track.artist_name)
          = Except.ok y) := by
  refine ⟨?_, ?_, ?_, ?_⟩
  · intro h
    rw [handleSearch_lyrics_empty api s h]
    simp [runEffects, applyEffect]
  · intro e h
    rw [handleSearch_lyrics_error api s e h]
    simp [runEffects, applyEffect]
  · intro first rest e h hy
    rw [handleSearch_youtube_error api s first rest e h hy]
    simp [runEffects, applyEffect]
  · intro hne
    rcases handleSearch_outcomes api s with ⟨e, h⟩ | h | ⟨first, rest, e, h, hy⟩ | hok
    · rw [handleSearch_lyrics_error api s e h] at hne
      simp [runEffects, applyEffect] at hne
    · rw [handleSearch_lyrics_empty api s h] at hne
      simp [runEffects, applyEffect] at hne
    · rw [handleSearch_youtube_error api s first rest e h hy] at hne
      simp [runEffects, applyEffect] at hne
    · exact hok

/-- Witness for C9: `searchLyrics` rejects while one video result is stored. -/
theorem handleSearch_youtubeResults_frame_witness :
    (runEffects sampleDetailState
      (handleSearch
        { searchLyrics := fun _ => Except.error (JsError.rejected "network")
          searchYouTube := sampleApi.searchYouTube } sampleDetailState).1).results
      = sampleDetailState.results ∧
    (runEffects sampleDetailState
      (handleSearch
        { searchLyrics := fun _ => Except.error (JsError.rejected "network")
          searchYouTube := sampleApi.searchYouTube } sampleDetailState).1).youtubeResults
      = [sampleVideo] :=
  (handleSearch_youtubeResults_frame
    { searchLyrics := fun _ => Except.error (JsError.rejected "network")
      searchYouTube := sampleApi.searchYouTube } sampleDetailState).2.1
    (JsError.rejected "network") rfl

/-- C10: for every outcome of `handleSearch`, the call completes without an
error; `isLoading` is `true` after each of its effects but the last and `false`
after the last; `searchQuery`, `selectedLyric` and `darkMode` are the same all
along. -/
theorem handleSearch_isLoading {σ : Type} (api : Api) (s : AppState σ) :
    (handleSearch api s).2 = Except.ok () ∧
    (∀ n, 0 < n → n < (handleSearch api s).1.length →
      (runEffects s ((handleSearch api s).1.take n)).isLoading = true) ∧
    (runEffects s (handleSearch api s).1).isLoading = false ∧
    (∀ n, (runEffects s ((handleSearch api s).1.take n)).searchQuery = s.searchQuery ∧
      (runEffects s ((handleSearch api s).1.take n)).selectedLyric = s.selectedLyric ∧
      (runEffects s ((handleSearch api s).1.take n)).darkMode = s.darkMode) ∧
    (runEffects s (handleSearch api s).1).searchQuery = s.searchQuery ∧
    (runEffects s (handleSearch api s).1).selectedLyric = s.selectedLyric ∧
    (runEffects s (handleSearch api s).1).darkMode = s.darkMode := by
  have hframe := runEffects_frame (handleSearch api s).1 s
  refine ⟨?_, ?_, ?_, ?_, hframe.1, hframe.2.1, hframe.2.2.1⟩
  · rcases handleSearch_outcomes api s with ⟨e, h⟩ | h | ⟨first, rest, e, h, hy⟩ |
      ⟨first, rest, y, h, hy⟩
    · rw [handleSearch_lyrics_error api s e h]
    · rw [handleSearch_lyrics_empty api s h]
    · rw [handleSearch_youtube_error api s first rest e h hy]
    · rw [handleSearch_both_ok api s first rest y h hy]
  · intro n hpos hlt
    rcases handleSearch_outcomes api s with ⟨e, h⟩ | h | ⟨first, rest, e, h, hy⟩ |
      ⟨first, rest, y, h, hy⟩
    · rw [handleSearch_lyrics_error api s e h] at hlt ⊢
      simp only [List.length_cons, List.length_nil] at hlt
      interval_cases n <;> simp [runEffects, applyEffect]
    · rw [handleSearch_lyrics_empty api s h] at hlt ⊢
      simp only [List.length_cons, List.length_nil] at hlt
      interval_cases n <;> simp [runEffects, applyEffect]
    · rw [handleSearch_youtube_error api s first rest e h hy] at hlt ⊢
      simp only [List.length_cons, List.length_nil] at hlt
      interval_cases n <;> simp [runEffects, applyEffect]
    · rw [handleSearch_both_ok api s first rest y h hy] at hlt ⊢
      simp only [List.length_cons, List.length_nil] at hlt
      interval_cases n <;> simp [runEffects, applyEffect]
  · rcases handleSearch_outcomes api s with ⟨e, h⟩ | h | ⟨first, rest, e, h, hy⟩ |
      ⟨first, rest, y, h, hy⟩
    · rw [handleSearch_lyrics_error api s e h]
      simp [runEffects, applyEffect]
    · rw [handleSearch_lyrics_empty api s h]
      simp [runEffects, applyEffect]
    · rw [handleSearch_youtube_error api s first rest e h hy]
      simp [runEffects, applyEffect]
    · rw [handleSearch_both_ok api s first rest y h hy]
      simp [runEffects, applyEffect]
  · intro n
    have h := runEffects_frame ((handleSearch api s).1.take n) s
    exact ⟨h.1, h.2.1, h.2.2.1⟩

/-- Witness for C10: after the third of the six effects of a search in which
both clients resolve, `isLoading` is `true`. -/
theorem handleSearch_isLoading_witness :
    0 < 3 ∧ 3 < (handleSearch sampleApi sampleSearchState).1.length ∧
    (runEffects sampleSearchState
      ((handleSearch sampleApi sampleSearchState).1.take 3)).isLoading = true :=
  ⟨by decide, by decide,
    (handleSearch_isLoading sampleApi sampleSearchState).2.1 3 (by decide) (by decide)⟩

theorem runEvents_keeps_selection {σ : Type} (locate : LyricsValue → String → σ)
    (evs : List Event) (s s' : AppState σ) (sl : SelectedLyric σ)
    (hsel : s.selectedLyric = some sl) (hrun : runEvents locate s evs = some s') :
    s'.selectedLyric = some sl ∧ s'.searchQuery = s.searchQuery := by
  induction evs generalizing s with
  | nil =>
    simp only [runEvents, Option.some.injEq] at hrun
    subst hrun
    exact ⟨hsel, rfl⟩
  | cons ev rest ih =>
    simp only [runEvents] at hrun
    cases hstep : step locate s ev with
    | none => simp [hstep] at hrun
    | some s1 =>
      simp only [hstep] at hrun
      obtain ⟨h1, h2⟩ := step_keeps_selection locate s s1 ev sl hsel hstep
      obtain ⟨h3, h4⟩ := ih s1 h1 hrun
      exact ⟨h3, h4.trans h2⟩

theorem runEvents_reachable {σ : Type} (locate : LyricsValue → String → σ)
    (evs : List Event) (s s' : AppState σ)
    (hs : Reachable locate s) (hrun : runEvents locate s evs = some s') :
    Reachable locate s' := by
  induction evs generalizing s with
  | nil =>
    simp only [runEvents, Option.some.injEq] at hrun
    subst hrun
    exact hs
  | cons ev rest ih =>
    simp only [runEvents] at hrun
    cases hstep : step locate s ev with
    | none => simp [hstep] at hrun
    | some s1 =>
      simp only [hstep] at hrun
      exact ih s1 (Reachable.next s s1 ev hs hstep) hrun

theorem step_fresh_selection {σ : Type} (locate : LyricsValue → String → σ)
    (s s' : AppState σ) (ev : Event) (sl : SelectedLyric σ)
    (hnone : s.selectedLyric = none) (hstep : step locate s ev = some s')
    (hsel : s'.selectedLyric = some sl) :
    sl.lyric = locate sl.fullLyrics s'.searchQuery := by
  cases ev with
  | ready =>
    simp only [step, Option.some.injEq] at hstep
    subst hstep
    simp [hnone] at hsel
  | setDarkMode b =>
    simp only [step] at hstep
    split at hstep
    · simp only [Option.some.injEq] at hstep
      subst hstep
      simp [hnone] at hsel
    · simp at hstep
  | changeText text =>
    simp only [step] at hstep
    split at hstep
    · simp only [Option.some.injEq] at hstep
      subst hstep
      simp [hnone] at hsel
    · simp at hstep
  | searchEffect e =>
    simp only [step] at hstep
    split at hstep
    · simp only [Option.some.injEq] at hstep
      subst hstep
      cases e <;> simp [applyEffect, hnone] at hsel
    · simp at hstep
  | pressLyric index =>
    simp only [step] at hstep
    split at hstep
    · split at hstep
      · rename_i item hitem
        simp only [Option.some.injEq] at hstep
        subst hstep
        cases hv : s.youtubeResults[index]? with
        | none =>
          simp [onSelect, handleSelectLyric, hv, afterHandler, hnone] at hsel
        | some video =>
          simp only [onSelect, handleSelectLyric, hv, afterHandler, Option.some.injEq] at hsel ⊢
          subst hsel
          rfl
      · simp at hstep
    · simp at hstep

/-! ## The selection over the life of the App: claims C5, C6 -/

/-- C5: in every state of the App reachable from the initial state through its
operations (splash timer, typing into the search box, the effects of
`handleSearch`, a press on a lyrics result, the dark-mode switch) in which
`selectedLyric` is non-null, `selectedLyric.lyric` equals the locator applied
to `selectedLyric.fullLyrics` and the current `searchQuery`. -/
theorem selectedLyric_never_stale {σ : Type} (locate : LyricsValue → String → σ)
    (s : AppState σ) (hs : Reachable locate s) (sl : SelectedLyric σ)
    (hsel : s.selectedLyric = some sl) :
    sl.lyric = locate sl.fullLyrics s.searchQuery := by
  induction hs generalizing sl with
  | init => simp [initialState] at hsel
  | next s0 s1 ev _ hstep ih =>
    cases h0 : s0.selectedLyric with
    | none => exact step_fresh_selection locate s0 s1 ev sl h0 hstep hsel
    | some sl0 =>
      obtain ⟨h1, h2⟩ := step_keeps_selection locate s0 s1 ev sl0 h0 hstep
      rw [h1, Option.some.injEq] at hsel
      subst hsel
      rw [h2]
      exact ih sl0 h0

/-- Witness for C5: the detail view reached by typing "love", searching and
pressing the first result. -/
theorem selectedLyric_never_stale_witness :
    Reachable recordArguments sampleDetailState ∧
    (LyricsValue.raw "I walk alone\nLove is all I need", "love")
      = recordArguments (LyricsValue.raw "I walk alone\nLove is all I need")
          sampleDetailState.searchQuery :=
  ⟨runEvents_reachable recordArguments sampleEvents _ _ Reachable.init (by decide),
    selectedLyric_never_stale recordArguments sampleDetailState
      (runEvents_reachable recordArguments sampleEvents _ _ Reachable.init (by decide))
      { lyric := (LyricsValue.raw "I walk alone\nLove is all I need", "love")
        songTitle := "Alone"
        artist := "Nobody"
        videoId := "v1"
        fullLyrics := LyricsValue.raw "I walk alone\nLove is all I need" } rfl⟩

/-- C6, as stated, fails: the detail view reached by typing "love", searching
and pressing the first result has a non-null `selectedLyric`, and no sequence
of events the App offers from there leads to a state in which `selectedLyric`
is null. -/
theorem no_return_to_search_counterexample :
    runEvents recordArguments (initialState (LyricsValue × String)) sampleEvents
      = some sampleDetailState ∧
    sampleDetailState.selectedLyric ≠ none ∧
    ∀ evs s', runEvents recordArguments sampleDetailState evs = some s' →
      s'.selectedLyric ≠ none := by
  refine ⟨by decide, by decide, ?_⟩
  intro evs s' hrun
  have h := (runEvents_keeps_selection recordArguments evs sampleDetailState s' _ rfl hrun).1
  rw [h]
  exact Option.some_ne_none _

/-- C6 (amended): the App has no return-to-search transition.  From every
state in which `selectedLyric` is non-null, every sequence of events the App
offers (the dark-mode switch and the effects of a search still in progress;
the detail view receives no callback) leaves `selectedLyric` at the same
non-null value and `searchQuery` unchanged, so the detail view stays shown. -/
theorem selectedLyric_is_never_discarded {σ : Type} (locate : LyricsValue → String → σ)
    (s s' : AppState σ) (evs : List Event) (sl : SelectedLyric σ)
    (hsel : s.selectedLyric = some sl) (hrun : runEvents locate s evs = some s') :
    s'.selectedLyric = some sl ∧ s'.searchQuery = s.searchQuery :=
  runEvents_keeps_selection locate evs s s' sl hsel hrun

/-- Witness for C6: in the detail view, the dark-mode switch and the end of a
search leave the selection in place. -/
theorem selectedLyric_is_never_discarded_witness :
    runEvents recordArguments sampleDetailState
        [Event.setDarkMode true, Event.searchEffect (Effect.setResults [])]
      = some { sampleDetailState with darkMode := true, results := [] } ∧
    ({ sampleDetailState with darkMode := true, results := [] } :
        AppState (LyricsValue × String)).selectedLyric
      = sampleDetailState.selectedLyric :=
  ⟨by decide,
    (selectedLyric_is_never_discarded recordArguments sampleDetailState
      { sampleDetailState with darkMode := true, results := [] }
      [Event.setDarkMode true, Event.searchEffect (Effect.setResults [])]
      { lyric := (LyricsValue.raw "I walk alone\nLove is all I need", "love")
        songTitle := "Alone"
        artist := "Nobody"
        videoId := "v1"
        fullLyrics := LyricsValue.raw "I walk alone\nLove is all I need" }
      rfl (by decide)).1⟩

end Rizzenade
